import Mathlib

/-!
# Unity storage driver: volume and attachment reconciliation

A shallow embedding of `drivers/storage/unity/storage/unity_storage.go`.

* The driver struct is the record `driver` (configuration and cached pool).
* The array client (`gounity`, an external library) is a record `Unity σ` of
  functions over an abstract array state `σ`; every theorem that is not an
  evaluation at a concrete array holds for every such client.
* Every call the driver makes on the client is appended to `World.calls`, and
  every log line to `World.logs`, so that "no call was issued" is a statement
  about a list.
* A Go function returning `(value, error)` returns a pair of options; a call
  that does not return (`log.Fatal`, a runtime panic) is an `Outcome` of its own.
* One driver operation runs against one array state: a lookup is a function of
  that state, and only the mutations the operation itself issues change it.
-/

namespace UnityDriver

/-! ## Data model -/

/-- Modelled from the spec: `types.InstanceID` of `api/types` (declared
outside the driver package); the two fields the driver fills. -/
structure InstanceID where
  ID : String
  Driver : String
deriving DecidableEq, Repr

/-- Modelled from the spec: `types.VolumeAttachment` of `api/types`. -/
structure VolumeAttachment where
  VolumeID : String
  InstanceID : InstanceID
  DeviceName : String
  Status : String
deriving DecidableEq, Repr

/-- Modelled from the spec: `types.Volume` of `api/types`; `Size` and `IOPS` are
`int64`. -/
structure Volume where
  Name : String
  ID : String
  AvailabilityZone : String
  Status : String
  Type_ : String
  Size : Int
  IOPS : Int
  Attachments : List VolumeAttachment
deriving DecidableEq, Repr

/-- Modelled from the spec: `types.Snapshot` of `api/types`; no driver operation
ever builds one. -/
structure Snapshot where
  ID : String
  Name : String
deriving DecidableEq, Repr

/-- A Go `error` value: a message (`errors.New`, `goof.New`) or a message
wrapped around an inner error (`goof.WithError`, `goof.WithFieldsE`). -/
inductive Error where
  | msg (text : String)
  | wrap (text : String) (inner : Error)
deriving DecidableEq, Repr

/-- The array-side pool object `rsc.Pool` of the client library. -/
structure Pool where
  Id : String
  Name : String
deriving DecidableEq, Repr

/-- The array-side volume `rsc.Lun` of the client library; `SizeTotal` is an
unsigned 64-bit byte count. -/
structure Lun where
  Id : String
  Name : String
  SizeTotal : Nat
deriving DecidableEq, Repr

/-- The array-side host object of the client library. -/
structure Host where
  Id : String
deriving DecidableEq, Repr

/-- One host association of a Lun (an element of the list `GetHostLUN` returns). -/
structure HostLUN where
  HostId : String
deriving DecidableEq, Repr

/-- Modelled from the spec: `types.LocalDevices` of `api/types`; the device map
sends a Lun identifier to a local device name. -/
structure LocalDevices where
  Driver : String
  DeviceMap : List (String × String)
deriving DecidableEq, Repr

/-- Modelled from the spec: the request context of `api/context`, reduced to the
two values the driver reads from it; either may be absent. -/
structure Context where
  instanceID : Option InstanceID
  localDevices : Option LocalDevices
deriving DecidableEq, Repr

/-- The configuration `gofig.Config`: `GetString` of a key (the empty string for
a key that is not set). -/
structure Config where
  GetString : String → String

/-- Options of `Volumes` (`types.VolumesOpts`). -/
structure VolumesOpts where
  Attachments : Bool
deriving DecidableEq, Repr

/-- Options of `VolumeInspect` (`types.VolumeInspectOpts`); the pass-through
store `Opts` is never read by the driver and is left out. -/
structure VolumeInspectOpts where
  Attachments : Bool
deriving DecidableEq, Repr

/-- Options of `VolumeAttach` (`types.VolumeAttachOpts`). -/
structure VolumeAttachOpts where
  Force : Bool
deriving DecidableEq, Repr

/-- Options of `VolumeDetach` (`types.VolumeDetachOpts`); never read by the
driver. -/
structure VolumeDetachOpts where
  Force : Bool
deriving DecidableEq, Repr

/-- The key-value store `types.Store` passed as options; never read by the
driver. -/
abbrev Store := List (String × String)

/-- Options of `VolumeCreate` (`types.VolumeCreateOpts`): four optional values. -/
structure VolumeCreateOpts where
  AvailabilityZone : Option String
  Type_ : Option String
  Size : Option Int
  IOPS : Option Int
deriving DecidableEq, Repr

/-! ## Execution model -/

/-- How a call ends: it returns a value, the process exits in `log.Fatal`, or
the Go runtime panics (a nil dereference, a failed `Must` lookup). -/
inductive Outcome (α : Type) where
  | ret (v : α)
  | fatal
  | panic
deriving DecidableEq, Repr

/-- A call issued to the array client, with its receiver and arguments. A
receiver or argument that the driver does not check against nil is an option. -/
inductive Call where
  | New (ip user pass : String)
  | Authenticate
  | GetPoolById (id : String)
  | GetPoolByName (name : String)
  | GetLunList (pool : Option Pool)
  | CreateLun (pool : Option Pool) (name : String) (size : Nat)
  | GetLunById (id : String)
  | GetHostById (id : String)
  | GetHostLUN (lun : Lun)
  | Delete (lun : Option Lun)
  | DetachHost (lun : Lun) (host : Option Host)
  | DetachAllHosts (lun : Lun)
deriving DecidableEq, Repr

/-- The calls that change the array: create, delete, detach, detach-all. -/
def Call.isMutation : Call → Bool
  | .CreateLun _ _ _ => true
  | .Delete _ => true
  | .DetachHost _ _ => true
  | .DetachAllHosts _ => true
  | _ => false

/-- The two pool-lookup queries. -/
def Call.isPoolLookup : Call → Bool
  | .GetPoolById _ => true
  | .GetPoolByName _ => true
  | _ => false

/-- Severity of a log line (`logrus` levels the driver uses). -/
inductive Level where
  | info
  | error
  | fatal
deriving DecidableEq, Repr

/-- The array client `gounity.Unity` and the resource methods the driver calls,
over an abstract array state `σ`. Lookups read the state; mutations return the
next state. A method whose receiver or argument may be nil in the driver takes
an option and decides by itself how such a call ends. -/
structure Unity (σ : Type) where
  New : σ → String → String → String → Option Error
  Authenticate : σ → Option Error
  GetPoolById : σ → String → Option Pool
  GetPoolByName : σ → String → Option Pool
  GetLunList : σ → Option Pool → Outcome (List Lun)
  CreateLun : σ → Option Pool → String → Nat → Outcome ((Option Lun × Option Error) × σ)
  GetLunById : σ → String → Option Lun
  GetHostById : σ → String → Option Host
  GetHostLUN : σ → Lun → List HostLUN
  Delete : σ → Option Lun → Outcome (Option Error × σ)
  DetachHost : σ → Lun → Option Host → Outcome (Option Error × σ)
  DetachAllHosts : σ → Lun → Option Error × σ

/-- Everything outside the driver struct: the array, the calls issued to it so
far (oldest first) and the log lines written so far. -/
structure World (σ : Type) where
  array : σ
  calls : List Call
  logs : List (Level × String)

/-- Record a call issued to the array client. -/
def World.call {σ : Type} (w : World σ) (c : Call) : World σ :=
  { w with calls := w.calls ++ [c] }

/-- Write a log line. -/
def World.logf {σ : Type} (w : World σ) (l : Level) (text : String) : World σ :=
  { w with logs := w.logs ++ [(l, text)] }

/-- Replace the array state (after a mutation). -/
def World.setArray {σ : Type} (w : World σ) (a : σ) : World σ :=
  { w with array := a }

/-- Go conversion of an unsigned 64-bit value to `int64` (two's complement). -/
def int64 (n : Nat) : Int :=
  if n % 2 ^ 64 < 2 ^ 63 then ((n % 2 ^ 64 : Nat) : Int) else ((n % 2 ^ 64 : Nat) : Int) - 2 ^ 64

/-- Go conversion of an `int64` to `uint32`. -/
def uint32 (i : Int) : Nat :=
  (i % 2 ^ 32).toNat

/-! ## The driver -/

/-- The driver struct: configuration and the cached pool (nil until resolved).
The client handle `unity` is the `Unity σ` argument of every operation. -/
structure driver where
  config : Config
  pool : Option Pool

/-- The constant `unity.Name`. -/
def Name : String := "unity"

/-- `newDriver`: the zero value of the driver struct. -/
def newDriver : driver :=
  { config := { GetString := fun _ => "" }, pool := none }

/-- `driver.Name`. -/
def driver.Name (_d : driver) : String := UnityDriver.Name

/-- `driver.endpoint`. -/
def driver.endpoint (d : driver) : String := d.config.GetString "unity.endpoint"

/-- `driver.userName`. -/
def driver.userName (d : driver) : String := d.config.GetString "unity.userName"

/-- `driver.password`. -/
def driver.password (d : driver) : String := d.config.GetString "unity.password"

/-- `driver.storagePoolID`. -/
def driver.storagePoolID (d : driver) : String := d.config.GetString "unity.storagePoolID"

/-- `driver.storagePoolName`. -/
def driver.storagePoolName (d : driver) : String := d.config.GetString "unity.storagePoolName"

/-- `driver.assembleVolumeSD`: the canonical Volume of a Lun and a device name. -/
def driver.assembleVolumeSD (d : driver) (lun : Lun) (deviceName : String) : Volume :=
  let instanceID : InstanceID := { ID := lun.Id, Driver := d.Name }
  let attachmentSD : VolumeAttachment :=
    { VolumeID := lun.Id, InstanceID := instanceID, DeviceName := deviceName, Status := "" }
  let attachmentsSD := [attachmentSD]
  { Name := lun.Name
    ID := lun.Id
    AvailabilityZone := ""
    Status := ""
    Type_ := "thin"
    Size := int64 (lun.SizeTotal / 1024 / 1024 / 1024)
    IOPS := 0
    Attachments := attachmentsSD }

/-- `driver.Init`: store the configuration, create the client and log in. The
pool is not touched. -/
def driver.Init {σ : Type} (u : Unity σ) (d : driver) (config : Config) (w : World σ) :
    Option Error × driver × World σ :=
  let d1 : driver := { d with config := config }
  let ip := d1.endpoint
  let user := d1.userName
  let pass := d1.password
  let w1 := (w.logf .info "initializing driver: ").logf .info "starting unity driver."
  let w2 := w1.call (.New ip user pass)
  match u.New w.array ip user pass with
  | some err => (some (.wrap "failed to initialize unity instance." err), d1, w2)
  | none =>
    let w3 := w2.call .Authenticate
    match u.Authenticate w.array with
    | some err => (some (.wrap "error logging in." err), d1, w3)
    | none => (none, d1, w3.logf .info "storage driver initialized.")

/-- `driver.Volumes`: one Volume per Lun of the cached pool `d.pool`, which is
read as it is (the receiver of `GetLunList` may be nil). -/
def driver.Volumes {σ : Type} (u : Unity σ) (d : driver) (ctx : Context) (opts : VolumesOpts)
    (w : World σ) : Outcome (List Volume × Option Error) × World σ :=
  let mappedVolumes : List (String × String) :=
    if opts.Attachments then
      match ctx.localDevices with
      | some ld => ld.DeviceMap
      | none => []
    else []
  let w1 := w.call (.GetLunList d.pool)
  match u.GetLunList w.array d.pool with
  | .ret lunList =>
    let volumesSD := lunList.map fun lun =>
      let deviceName :=
        match mappedVolumes.lookup lun.Id with
        | some name => name
        | none => ""
      d.assembleVolumeSD lun deviceName
    (.ret (volumesSD, none), w1)
  | .fatal => (.fatal, w1)
  | .panic => (.panic, w1)

/-- `driver.getPool`: the cached pool, resolved on first use by ID, else by
name; with neither configured the process exits in `log.Fatal`. -/
def driver.getPool {σ : Type} (u : Unity σ) (d : driver) (w : World σ) :
    Outcome (Option Pool) × driver × World σ :=
  match d.pool with
  | none =>
    let poolName := d.storagePoolName
    let poolId := d.storagePoolID
    if poolId ≠ "" then
      let p := u.GetPoolById w.array poolId
      (.ret p, { d with pool := p }, w.call (.GetPoolById poolId))
    else if poolName ≠ "" then
      let p := u.GetPoolByName w.array poolName
      (.ret p, { d with pool := p }, w.call (.GetPoolByName poolName))
    else
      (.fatal, d, w.logf .fatal
        "cannot find the specified storage pool on array.  please check the configure.")
  | some p => (.ret (some p), d, w)

/-- `getMappedVolumes`: the context's device map when attachments are asked for
and the context carries local devices, else the empty map. -/
def getMappedVolumes (ctx : Context) (opts : VolumeInspectOpts) : List (String × String) :=
  if opts.Attachments then
    match ctx.localDevices with
    | some ld => ld.DeviceMap
    | none => []
  else []

/-- `driver.VolumeInspect`. -/
def driver.VolumeInspect {σ : Type} (u : Unity σ) (d : driver) (ctx : Context)
    (volumeID : String) (opts : VolumeInspectOpts) (w : World σ) :
    (Option Volume × Option Error) × World σ :=
  if volumeID = "" then
    ((none, some (.msg "no volume ID specified.")), w)
  else
    let mappedVolumes := getMappedVolumes ctx opts
    let w1 := w.call (.GetLunById volumeID)
    match u.GetLunById w.array volumeID with
    | none => ((none, some (.msg ("failed to find lun with id " ++ volumeID))), w1)
    | some lun =>
      let deviceName :=
        match mappedVolumes.lookup lun.Id with
        | some name => name
        | none => ""
      ((some (d.assembleVolumeSD lun deviceName), none), w1)

/-- `driver.VolumeCreate`: create a Lun in the pool `getPool` returns, then
inspect it. -/
def driver.VolumeCreate {σ : Type} (u : Unity σ) (d : driver) (ctx : Context)
    (volumeName : String) (opts : VolumeCreateOpts) (w : World σ) :
    Outcome (Option Volume × Option Error) × driver × World σ :=
  let w0 := w.logf .info "creating volume"
  let volume : Volume :=
    { Name := "", ID := "", AvailabilityZone := opts.AvailabilityZone.getD "", Status := "",
      Type_ := opts.Type_.getD "", Size := opts.Size.getD 0, IOPS := opts.IOPS.getD 0,
      Attachments := [] }
  match d.getPool u w0 with
  | (.ret pool, d1, w1) =>
    let w2 := w1.call (.CreateLun pool volumeName (uint32 volume.Size))
    match u.CreateLun w1.array pool volumeName (uint32 volume.Size) with
    | .ret ((_, some err), a) => (.ret (none, some err), d1, w2.setArray a)
    | .ret ((none, none), a) => (.panic, d1, w2.setArray a)
    | .ret ((some lun, none), a) =>
      let r := d1.VolumeInspect u ctx lun.Id { Attachments := true } (w2.setArray a)
      (.ret r.1, d1, r.2)
    | .fatal => (.fatal, d1, w2)
    | .panic => (.panic, d1, w2)
  | (.fatal, d1, w1) => (.fatal, d1, w1)
  | (.panic, d1, w1) => (.panic, d1, w1)

/-- `driver.VolumeCreateFromSnapshot`. -/
def driver.VolumeCreateFromSnapshot {σ : Type} (_d : driver) (_ctx : Context)
    (_snapshotID _volumeName : String) (_opts : VolumeCreateOpts) (w : World σ) :
    (Option Volume × Option Error) × World σ :=
  ((none, none), w.logf .error "create volume from snapshot is not implemented yet.")

/-- `driver.VolumeCopy`. -/
def driver.VolumeCopy {σ : Type} (_d : driver) (_ctx : Context)
    (_volumeID _volumeName : String) (_opts : Store) (w : World σ) :
    (Option Volume × Option Error) × World σ :=
  ((none, none), w.logf .error "volume copy is not implemented yet.")

/-- `driver.VolumeSnapshot`. -/
def driver.VolumeSnapshot {σ : Type} (_d : driver) (_ctx : Context)
    (_volumeID _snapshotName : String) (_opts : Store) (w : World σ) :
    (Option Snapshot × Option Error) × World σ :=
  ((none, none), w.logf .error "snaphost related APIs are not implemented yet.")

/-- `driver.VolumeRemove`: the looked-up Lun is the receiver of `Delete`
without a nil check. -/
def driver.VolumeRemove {σ : Type} (u : Unity σ) (_d : driver) (_ctx : Context)
    (volumeID : String) (_opts : Store) (w : World σ) : Outcome (Option Error) × World σ :=
  let lun := u.GetLunById w.array volumeID
  let w1 := w.call (.GetLunById volumeID)
  let w2 := w1.call (.Delete lun)
  match u.Delete w.array lun with
  | .ret (some err, a) => (.ret (some err), (w2.setArray a).logf .error "failed to delete volume.")
  | .ret (none, a) => (.ret none, w2.setArray a)
  | .fatal => (.fatal, w2)
  | .panic => (.panic, w2)

/-- `driver.VolumeAttach`: the conflict check, then (both branches marked
`todo` in the source issue no call) the inspection of the volume. -/
def driver.VolumeAttach {σ : Type} (u : Unity σ) (d : driver) (ctx : Context)
    (volumeID : String) (opts : VolumeAttachOpts) (w : World σ) :
    Outcome (Option Volume × String × Option Error) × World σ :=
  let w1 := w.call (.GetLunById volumeID)
  match u.GetLunById w.array volumeID with
  | none => (.ret (none, "", some (.msg "cannot find the specified lun.")), w1)
  | some lun =>
    let hostLUNList := u.GetHostLUN w.array lun
    let w2 := w1.call (.GetHostLUN lun)
    if hostLUNList.length > 0 ∧ opts.Force = false then
      (.ret (none, "", some (.msg "volume already attached to a host.")), w2)
    else
      match d.VolumeInspect u ctx volumeID { Attachments := true } w2 with
      | ((_, some err), w3) => (.ret (none, "", some (.wrap "error getting volume." err)), w3)
      | ((some attachedVol, none), w3) => (.ret (some attachedVol, attachedVol.ID, none), w3)
      | ((none, none), w3) => (.panic, w3)

/-- Modelled from the spec: `context.MustInstanceID` of `api/context`, the
instance identifier the context carries; the caller panics when there is none. -/
def MustInstanceID (ctx : Context) : Option InstanceID :=
  ctx.instanceID

/-- `driver.VolumeDetach`: the looked-up host is passed to `DetachHost` without
a nil check. -/
def driver.VolumeDetach {σ : Type} (u : Unity σ) (d : driver) (ctx : Context)
    (volumeID : String) (_opts : VolumeDetachOpts) (w : World σ) :
    Outcome (Option Volume × Option Error) × World σ :=
  match MustInstanceID ctx with
  | none => (.panic, w)
  | some iid =>
    let w1 := w.call (.GetLunById volumeID)
    match u.GetLunById w.array volumeID with
    | none => (.ret (none, some (.msg "error getting lun.")), w1)
    | some lun =>
      let host := u.GetHostById w.array iid.ID
      let w2 := w1.call (.GetHostById iid.ID)
      let w3 := w2.call (.DetachHost lun host)
      match u.DetachHost w.array lun host with
      | .ret (some err, a) => (.ret (none, some err), w3.setArray a)
      | .ret (none, a) =>
        match d.VolumeInspect u ctx volumeID { Attachments := true } (w3.setArray a) with
        | ((_, some err), w4) => (.ret (none, some err), w4)
        | ((vol, none), w4) => (.ret (vol, none), w4)
      | .fatal => (.fatal, w3)
      | .panic => (.panic, w3)

/-- `driver.VolumeDetachAll`. -/
def driver.VolumeDetachAll {σ : Type} (u : Unity σ) (_d : driver) (_ctx : Context)
    (volumeID : String) (_opts : Store) (w : World σ) : Option Error × World σ :=
  let w1 := w.call (.GetLunById volumeID)
  match u.GetLunById w.array volumeID with
  | none => (some (.msg "error getting lun."), w1)
  | some lun =>
    let r := u.DetachAllHosts w.array lun
    (r.1, (w1.call (.DetachAllHosts lun)).setArray r.2)

/-- `driver.Snapshots`. -/
def driver.Snapshots {σ : Type} (_d : driver) (_ctx : Context) (_opts : Store) (w : World σ) :
    (List Snapshot × Option Error) × World σ :=
  (([], none), w.logf .error "snaphost related APIs are not implemented yet.")

/-- `driver.SnapshotInspect`. -/
def driver.SnapshotInspect {σ : Type} (_d : driver) (_ctx : Context) (_snapshotID : String)
    (_opts : Store) (w : World σ) : (Option Snapshot × Option Error) × World σ :=
  ((none, none), w.logf .error "snaphost related APIs are not implemented yet.")

/-- `driver.SnapshotCopy`. -/
def driver.SnapshotCopy {σ : Type} (_d : driver) (_ctx : Context)
    (_snapshotID _snapshotName _destinationID : String) (_opts : Store) (w : World σ) :
    (Option Snapshot × Option Error) × World σ :=
  ((none, none), w.logf .error "snaphost related APIs are not implemented yet.")

/-- `driver.SnapshotRemove`. -/
def driver.SnapshotRemove {σ : Type} (_d : driver) (_ctx : Context) (_snapshotID : String)
    (_opts : Store) (w : World σ) : Option Error × World σ :=
  (none, w.logf .error "snaphost related APIs are not implemented yet.")

/-! ## A concrete array

An in-memory array and a client over it, used to run the driver on explicit
inputs. -/

/-- An in-memory array: its pools, its Luns (each with its host associations)
and its hosts. Every Lun belongs to every pool. -/
structure MemArray where
  pools : List Pool
  luns : List (Lun × List HostLUN)
  hosts : List Host
deriving DecidableEq, Repr

/-- A client over `MemArray`. Lookups search the lists and return nil on a
miss; a method called on a nil receiver, or handed a nil host, panics (it reads
the object it is given). -/
def memUnity : Unity MemArray where
  New := fun _ _ _ _ => none
  Authenticate := fun _ => none
  GetPoolById := fun a id => a.pools.find? fun p => p.Id == id
  GetPoolByName := fun a name => a.pools.find? fun p => p.Name == name
  GetLunList := fun a pool =>
    match pool with
    | none => .panic
    | some _ => .ret (a.luns.map Prod.fst)
  CreateLun := fun a pool name size =>
    match pool with
    | none => .panic
    | some _ =>
      let lun : Lun := { Id := "sv_" ++ name, Name := name, SizeTotal := size * 2 ^ 30 }
      .ret ((some lun, none), { a with luns := a.luns ++ [(lun, [])] })
  GetLunById := fun a id => (a.luns.find? fun l => l.1.Id == id).map Prod.fst
  GetHostById := fun a id => a.hosts.find? fun h => h.Id == id
  GetHostLUN := fun a lun => ((a.luns.find? fun l => l.1.Id == lun.Id).map Prod.snd).getD []
  Delete := fun a lun =>
    match lun with
    | none => .panic
    | some l => .ret (none, { a with luns := a.luns.filter fun x => x.1.Id != l.Id })
  DetachHost := fun a lun host =>
    match host with
    | none => .panic
    | some h =>
      .ret (none, { a with luns := a.luns.map fun x =>
        if x.1.Id == lun.Id then (x.1, x.2.filter fun hl => hl.HostId != h.Id) else x })
  DetachAllHosts := fun a lun =>
    (none, { a with luns := a.luns.map fun x => if x.1.Id == lun.Id then (x.1, []) else x })

/-- A Lun of 50 GiB. -/
def lunA : Lun := { Id := "sv_1", Name := "data", SizeTotal := 53687091200 }

/-- A Lun of 1.5 GiB. -/
def lunB : Lun := { Id := "sv_2", Name := "logs", SizeTotal := 1610612736 }

/-- An array with one pool, `lunA` attached to host `Host_7`, `lunB` attached
to nothing, and the hosts `Host_7` and `Host_9`. -/
def arrayA : MemArray :=
  { pools := [{ Id := "pool_1", Name := "gold" }]
    luns := [(lunA, [{ HostId := "Host_7" }]), (lunB, [])]
    hosts := [{ Id := "Host_7" }, { Id := "Host_9" }] }

/-- The world at start: the array `arrayA`, no call issued, nothing logged. -/
def worldA : World MemArray := { array := arrayA, calls := [], logs := [] }

/-- A configuration naming the pool by ID and by name. -/
def configA : Config :=
  { GetString := fun k =>
      if k = "unity.storagePoolID" then "pool_1"
      else if k = "unity.storagePoolName" then "gold"
      else "" }

/-- A driver after `Init` with `configA`: no pool resolved yet. -/
def driverA : driver := { config := configA, pool := none }

/-- A request context of instance `Host_9` whose device map knows `sv_1`. -/
def ctxA : Context :=
  { instanceID := some { ID := "Host_9", Driver := "unity" }
    localDevices := some { Driver := "unity", DeviceMap := [("sv_1", "/dev/sdb")] } }

/-- The device name a map gives for a Lun identifier: the mapped name when the
map contains the identifier, the empty string otherwise. -/
def lookupDeviceName (M : List (String × String)) (id : String) : String :=
  match M.lookup id with
  | some name => name
  | none => ""

/-- The device map the driver is to work with, in the words of the
specification: the context's local device map when attachments are asked for and
the context carries local devices, the empty map in every other case. -/
def suppliedDeviceMap (ctx : Context) (attachments : Bool) : List (String × String) :=
  match attachments, ctx.localDevices with
  | true, some ld => ld.DeviceMap
  | _, _ => []

/-- A Volume has a single Attachment, whose device name is the name the map `M`
holds for the key `id` when it holds one, and the empty string otherwise. -/
def DeviceNameFromMap (M : List (String × String)) (id : String) (vol : Volume) : Prop :=
  ∃ a, vol.Attachments = [a] ∧
    (∀ name, M.lookup id = some name → a.DeviceName = name) ∧
    ((∀ name, (id, name) ∉ M) → a.DeviceName = "")

/-- Successive calls of `getPool` on the same driver, `n` of them: the outcomes
in order, then the driver and the world afterwards. A call that does not return
ends the sequence. -/
def getPoolTimes {σ : Type} (u : Unity σ) :
    Nat → driver → World σ → List (Outcome (Option Pool)) × driver × World σ
  | 0, d, w => ([], d, w)
  | n + 1, d, w =>
    match d.getPool u w with
    | (.ret p, d1, w1) =>
      let r := getPoolTimes u n d1 w1
      (.ret p :: r.1, r.2.1, r.2.2)
    | (.fatal, d1, w1) => ([.fatal], d1, w1)
    | (.panic, d1, w1) => ([.panic], d1, w1)

/-- A configuration naming a pool, `pool_9`, that `arrayA` does not have. -/
def configB : Config :=
  { GetString := fun k => if k = "unity.storagePoolID" then "pool_9" else "" }

/-- A driver after `Init` with `configB`: no pool resolved yet. -/
def driverB : driver := { config := configB, pool := none }

/-- A request context of an instance, `Host_404`, that `arrayA` has no host
object for. -/
def ctxB : Context :=
  { instanceID := some { ID := "Host_404", Driver := "unity" }, localDevices := none }

/-- `Init` with `configA` of a new driver in `worldA`: the error returned, the
driver and the world afterwards. -/
def initA : Option Error × driver × World MemArray :=
  newDriver.Init memUnity configA worldA

/-! ## The Volume Assembler -/

/-- Three divisions by 1024 are one floor division by `2 ^ 30`. -/
theorem div_1024_thrice (n : Nat) : n / 1024 / 1024 / 1024 = n / 2 ^ 30 := by
  rw [Nat.div_div_eq_div_mul, Nat.div_div_eq_div_mul]
  norm_num

/-- `int64` keeps a value below `2 ^ 63`. -/
theorem int64_of_lt (n : Nat) (h : n < 2 ^ 63) : int64 n = (n : Int) := by
  have h1 : n % 2 ^ 64 = n := Nat.mod_eq_of_lt (by omega)
  unfold int64
  rw [h1, if_pos h]

/-- C3: for every Lun `L` (its byte size an unsigned 64-bit value) and every
device name, `assembleVolumeSD` returns a Volume with `ID = L.Id`,
`Name = L.Name`, `Type = "thin"`, empty `AvailabilityZone` and `Status`, and
`Size = floor (L.SizeTotal / 2 ^ 30)`; the three divisions by 1024 of the code
are that single floor division. -/
theorem assembleVolumeSD_fields (d : driver) (L : Lun) (deviceName : String)
    (h : L.SizeTotal < 2 ^ 64) :
    (d.assembleVolumeSD L deviceName).ID = L.Id ∧
    (d.assembleVolumeSD L deviceName).Name = L.Name ∧
    (d.assembleVolumeSD L deviceName).Type_ = "thin" ∧
    (d.assembleVolumeSD L deviceName).AvailabilityZone = "" ∧
    (d.assembleVolumeSD L deviceName).Status = "" ∧
    (d.assembleVolumeSD L deviceName).Size = ((L.SizeTotal / 2 ^ 30 : Nat) : Int) ∧
    L.SizeTotal / 1024 / 1024 / 1024 = L.SizeTotal / 2 ^ 30 := by
  have hdiv := div_1024_thrice L.SizeTotal
  have hlt : L.SizeTotal / 2 ^ 30 < 2 ^ 63 := by
    have : L.SizeTotal / 2 ^ 30 ≤ L.SizeTotal := Nat.div_le_self _ _
    have h34 : L.SizeTotal / 2 ^ 30 < 2 ^ 34 := by
      apply Nat.div_lt_of_lt_mul
      calc L.SizeTotal < 2 ^ 64 := h
        _ = 2 ^ 30 * 2 ^ 34 := by norm_num
    exact lt_trans h34 (by norm_num)
  refine ⟨rfl, rfl, rfl, rfl, rfl, ?_, hdiv⟩
  show int64 (L.SizeTotal / 1024 / 1024 / 1024) = _
  rw [hdiv]
  exact int64_of_lt _ hlt

/-- C3 at the 50 GiB Lun `lunA`: the assembled size is 50. -/
theorem assembleVolumeSD_fields_witness :
    lunA.SizeTotal < 2 ^ 64 ∧
    (driverA.assembleVolumeSD lunA "/dev/sdb").ID = "sv_1" ∧
    (driverA.assembleVolumeSD lunA "/dev/sdb").Type_ = "thin" ∧
    (driverA.assembleVolumeSD lunA "/dev/sdb").Size = 50 :=
  have h := assembleVolumeSD_fields driverA lunA "/dev/sdb" (by decide)
  ⟨by decide, h.1, h.2.2.1, by rw [h.2.2.2.2.2.1]; decide⟩

/-! ## Inspect and attach -/

/-- Recording a call leaves the array as it is. -/
theorem World.call_array {σ : Type} (w : World σ) (c : Call) : (w.call c).array = w.array := rfl

/-- Recording a call appends it to the calls. -/
theorem World.call_calls {σ : Type} (w : World σ) (c : Call) :
    (w.call c).calls = w.calls ++ [c] := rfl

/-- `VolumeInspect` of a non-empty identifier the array resolves: the assembled
Volume of the resolved Lun, after one lookup. -/
theorem VolumeInspect_found {σ : Type} (u : Unity σ) (d : driver) (ctx : Context)
    (volumeID : String) (opts : VolumeInspectOpts) (w : World σ) (L : Lun)
    (hid : volumeID ≠ "") (hL : u.GetLunById w.array volumeID = some L) :
    d.VolumeInspect u ctx volumeID opts w =
      ((some (d.assembleVolumeSD L (lookupDeviceName (getMappedVolumes ctx opts) L.Id)), none),
        w.call (.GetLunById volumeID)) := by
  simp only [driver.VolumeInspect, if_neg hid, hL, lookupDeviceName]

/-- `VolumeInspect` of an identifier the array does not resolve: an error and no
Volume, after at most one lookup. -/
theorem VolumeInspect_missing {σ : Type} (u : Unity σ) (d : driver) (ctx : Context)
    (volumeID : String) (opts : VolumeInspectOpts) (w : World σ)
    (hL : u.GetLunById w.array volumeID = none) :
    ∃ e w', d.VolumeInspect u ctx volumeID opts w = ((none, some e), w') ∧
      w'.array = w.array ∧ ∃ cs, w'.calls = w.calls ++ cs ∧ ∀ c ∈ cs, c.isMutation = false := by
  by_cases hid : volumeID = ""
  · exact ⟨.msg "no volume ID specified.", w,
      by simp only [driver.VolumeInspect, if_pos hid], rfl, [], by simp, by simp⟩
  · refine ⟨.msg ("failed to find lun with id " ++ volumeID), w.call (.GetLunById volumeID),
      by simp only [driver.VolumeInspect, if_neg hid, hL], rfl, [.GetLunById volumeID], rfl, ?_⟩
    simp [Call.isMutation]

/-- C1: for every non-empty volume identifier the array resolves to a Lun `L`
and every value of `force`, `VolumeAttach` returns, and it returns an error if
and only if `L` has at least one host association and `force` is false; when it
returns that error the array is unchanged and none of the calls issued is a
mutation; when `L` has no host association it succeeds, whatever `force` is,
with the assembled Volume of `L` and `L.Id` as the device handle. -/
theorem VolumeAttach_error_iff {σ : Type} (u : Unity σ) (d : driver) (ctx : Context)
    (volumeID : String) (opts : VolumeAttachOpts) (w : World σ) (L : Lun)
    (hid : volumeID ≠ "") (hL : u.GetLunById w.array volumeID = some L) :
    ∃ vol dev err w', d.VolumeAttach u ctx volumeID opts w = (.ret (vol, dev, err), w') ∧
      (err ≠ none ↔ (0 < (u.GetHostLUN w.array L).length ∧ opts.Force = false)) ∧
      (err ≠ none →
        err = some (.msg "volume already attached to a host.") ∧ vol = none ∧
        w'.array = w.array ∧
        ∃ cs, w'.calls = w.calls ++ cs ∧ ∀ c ∈ cs, c.isMutation = false) ∧
      ((u.GetHostLUN w.array L).length = 0 →
        err = none ∧ dev = L.Id ∧
        vol = some (d.assembleVolumeSD L
          (lookupDeviceName (getMappedVolumes ctx { Attachments := true }) L.Id))) := by
  by_cases hc : (u.GetHostLUN w.array L).length > 0 ∧ opts.Force = false
  · refine ⟨none, "", some (.msg "volume already attached to a host."),
      (w.call (.GetLunById volumeID)).call (.GetHostLUN L), ?_, ?_, ?_, ?_⟩
    · simp only [driver.VolumeAttach, hL, if_pos hc]
    · simp only [ne_eq, reduceCtorEq, not_false_eq_true, true_iff]
      exact hc
    · intro _
      refine ⟨rfl, rfl, rfl, [.GetLunById volumeID, .GetHostLUN L], ?_, ?_⟩
      · simp [World.call_calls]
      · simp [Call.isMutation]
    · intro h0
      omega
  · have hI := VolumeInspect_found u d ctx volumeID { Attachments := true }
      ((w.call (.GetLunById volumeID)).call (.GetHostLUN L)) L hid hL
    refine ⟨some (d.assembleVolumeSD L
        (lookupDeviceName (getMappedVolumes ctx { Attachments := true }) L.Id)), L.Id, none,
      ((w.call (.GetLunById volumeID)).call (.GetHostLUN L)).call (.GetLunById volumeID),
      ?_, ?_, ?_, ?_⟩
    · simp only [driver.VolumeAttach, hL, if_neg hc, hI]
      rfl
    · simp only [ne_eq, not_true_eq_false, false_iff]
      exact hc
    · intro h
      exact absurd rfl h
    · intro _
      exact ⟨rfl, rfl, rfl⟩

/-- C1 at `arrayA`: `sv_1` has one host association, so attaching it without
force is refused with no call but two lookups. -/
theorem VolumeAttach_error_iff_witness :
    ("sv_1" : String) ≠ "" ∧ memUnity.GetLunById worldA.array "sv_1" = some lunA ∧
    ∃ vol dev err w', driverA.VolumeAttach memUnity ctxA "sv_1" { Force := false } worldA
        = (.ret (vol, dev, err), w') ∧
      (err ≠ none ↔ (0 < (memUnity.GetHostLUN worldA.array lunA).length ∧ false = false)) ∧
      (err ≠ none →
        err = some (.msg "volume already attached to a host.") ∧ vol = none ∧
        w'.array = worldA.array ∧
        ∃ cs, w'.calls = worldA.calls ++ cs ∧ ∀ c ∈ cs, c.isMutation = false) ∧
      ((memUnity.GetHostLUN worldA.array lunA).length = 0 →
        err = none ∧ dev = lunA.Id ∧
        vol = some (driverA.assembleVolumeSD lunA
          (lookupDeviceName (getMappedVolumes ctxA { Attachments := true }) lunA.Id))) :=
  ⟨by decide, by decide,
    VolumeAttach_error_iff memUnity driverA ctxA "sv_1" { Force := false } worldA lunA
      (by decide) (by decide)⟩

/-! ## Device names -/

/-- A key that no pair of an association list carries is not found by `lookup`. -/
theorem lookup_none_of_no_key (M : List (String × String)) (id : String)
    (h : ∀ name, (id, name) ∉ M) : M.lookup id = none := by
  induction M with
  | nil => rfl
  | cons p M ih =>
    obtain ⟨k, v⟩ := p
    have hk : id ≠ k := by
      intro hk
      exact h v (by simp [hk])
    have hbeq : (id == k) = false := by simpa using hk
    rw [List.lookup_cons, hbeq]
    exact ih fun name hmem => h name (List.mem_cons_of_mem _ hmem)

/-- The map `getMappedVolumes` returns is the map the specification names. -/
theorem getMappedVolumes_eq (ctx : Context) (attachments : Bool) :
    getMappedVolumes ctx { Attachments := attachments } = suppliedDeviceMap ctx attachments := by
  cases attachments <;> cases h : ctx.localDevices <;> simp [getMappedVolumes, suppliedDeviceMap, h]

/-- The Volume assembled with the looked-up device name meets `DeviceNameFromMap`. -/
theorem assemble_deviceName (d : driver) (M : List (String × String)) (L : Lun) :
    DeviceNameFromMap M L.Id (d.assembleVolumeSD L (lookupDeviceName M L.Id)) := by
  refine ⟨_, rfl, ?_, ?_⟩
  · intro name h
    show lookupDeviceName M L.Id = name
    simp only [lookupDeviceName, h]
  · intro h
    show lookupDeviceName M L.Id = ""
    simp only [lookupDeviceName, lookup_none_of_no_key M L.Id h]

/-- C4: for every Lun `L` and the device map `M` supplied to the driver (the
context's local device map when the Attachments option is set and the context
carries local devices, the empty map otherwise), the single Attachment of the
produced Volume has `DeviceName = M[L.Id]` when `M` contains the key `L.Id` and
the empty string otherwise: in `VolumeInspect` for the Lun the identifier
resolves to, and in `Volumes` for each Lun of the list, in order. -/
theorem deviceName_from_map {σ : Type} (u : Unity σ) (d : driver) (ctx : Context)
    (w : World σ) (attachments : Bool) :
    (∀ volumeID L, volumeID ≠ "" → u.GetLunById w.array volumeID = some L →
      ∃ vol, (d.VolumeInspect u ctx volumeID { Attachments := attachments } w).1 = (some vol, none) ∧
        DeviceNameFromMap (suppliedDeviceMap ctx attachments) L.Id vol) ∧
    (∀ luns, u.GetLunList w.array d.pool = .ret luns →
      ∃ vols, (d.Volumes u ctx { Attachments := attachments } w).1 = .ret (vols, none) ∧
        vols.length = luns.length ∧
        ∀ (i : Nat) (L : Lun), luns[i]? = some L →
          ∃ vol, vols[i]? = some vol ∧
            DeviceNameFromMap (suppliedDeviceMap ctx attachments) L.Id vol) := by
  constructor
  · intro volumeID L hid hL
    rw [VolumeInspect_found u d ctx volumeID _ w L hid hL, getMappedVolumes_eq]
    exact ⟨_, rfl, assemble_deviceName d _ L⟩
  · intro luns hl
    refine ⟨luns.map fun L =>
      d.assembleVolumeSD L (lookupDeviceName (suppliedDeviceMap ctx attachments) L.Id), ?_, ?_, ?_⟩
    · simp only [driver.Volumes, hl]
      cases attachments <;> cases h : ctx.localDevices <;>
        simp [suppliedDeviceMap, h, lookupDeviceName]
    · simp
    · intro i L hi
      refine ⟨_, ?_, assemble_deviceName d _ L⟩
      simp [List.getElem?_map, hi]

/-- C4 at `arrayA`: the device map of `ctxA` knows `sv_1` as `/dev/sdb`, and the
inspected Volume of `sv_1` carries that device name. -/
theorem deviceName_from_map_witness :
    ∃ vol, (driverA.VolumeInspect memUnity ctxA "sv_1" { Attachments := true } worldA).1
        = (some vol, none) ∧
      DeviceNameFromMap [("sv_1", "/dev/sdb")] "sv_1" vol :=
  (deviceName_from_map memUnity driverA ctxA worldA true).1 "sv_1" lunA (by decide) (by decide)

/-- C5, as the code has it: for every Lun `L`, the assembled Volume carries
exactly one Attachment record, whose `VolumeID` is `L.Id` and whose `InstanceID`
is built from the Lun: its `ID` is `L.Id` and its `Driver` is the driver name
`unity`. -/
theorem assembleVolumeSD_attachment (d : driver) (L : Lun) (deviceName : String) :
    (d.assembleVolumeSD L deviceName).Attachments =
      [{ VolumeID := L.Id, InstanceID := { ID := L.Id, Driver := "unity" },
         DeviceName := deviceName, Status := "" }] :=
  rfl

/-- C5 fails as stated: inspected by the instance `Host_9`, the Volume of the
Lun `sv_1` carries an Attachment whose `InstanceID` is `sv_1`, the Lun's own
identifier, and not the identifier of the calling instance. -/
theorem attachment_instanceID_not_local :
    MustInstanceID ctxA = some { ID := "Host_9", Driver := "unity" } ∧
    (driverA.VolumeInspect memUnity ctxA "sv_1" { Attachments := true } worldA).1
      = (some (driverA.assembleVolumeSD lunA "/dev/sdb"), none) ∧
    (driverA.assembleVolumeSD lunA "/dev/sdb").Attachments.map (fun a => a.InstanceID)
      = [{ ID := "sv_1", Driver := "unity" }] ∧
    ¬ (∀ a ∈ (driverA.assembleVolumeSD lunA "/dev/sdb").Attachments,
        some a.InstanceID = MustInstanceID ctxA) := by
  refine ⟨rfl, by decide, rfl, ?_⟩
  intro h
  have h1 := h _ (List.mem_singleton.mpr rfl)
  revert h1
  decide

/-! ## The Pool Resolver -/

/-- C8: on a driver with no cached pool, `getPool` issues exactly one query when
`storagePoolID` is non-empty, the lookup by that ID (whatever `storagePoolName`
is), and returns and caches its answer; exactly one query when `storagePoolID`
is empty and `storagePoolName` is not, the lookup by that name; and when both are
empty it exits in `log.Fatal` after logging at fatal level, with no query issued,
the array and the driver unchanged. -/
theorem getPool_first_resolution {σ : Type} (u : Unity σ) (d : driver) (w : World σ)
    (hp : d.pool = none) :
    (d.storagePoolID ≠ "" →
      d.getPool u w =
        (.ret (u.GetPoolById w.array d.storagePoolID),
          { d with pool := u.GetPoolById w.array d.storagePoolID },
          w.call (.GetPoolById d.storagePoolID))) ∧
    (d.storagePoolID = "" → d.storagePoolName ≠ "" →
      d.getPool u w =
        (.ret (u.GetPoolByName w.array d.storagePoolName),
          { d with pool := u.GetPoolByName w.array d.storagePoolName },
          w.call (.GetPoolByName d.storagePoolName))) ∧
    (d.storagePoolID = "" → d.storagePoolName = "" →
      (d.getPool u w).1 = .fatal ∧ (d.getPool u w).2.1.pool = none ∧
      (d.getPool u w).2.2.calls = w.calls ∧ (d.getPool u w).2.2.array = w.array ∧
      ∃ text, (d.getPool u w).2.2.logs = w.logs ++ [(Level.fatal, text)]) := by
  refine ⟨?_, ?_, ?_⟩
  · intro hid
    simp only [driver.getPool, hp, if_pos hid]
  · intro hid hname
    simp only [driver.getPool, hp, hid, hname, ne_eq, not_true_eq_false, if_false,
      not_false_eq_true, if_true]
  · intro hid hname
    have hg : d.getPool u w = (.fatal, d, w.logf .fatal
        "cannot find the specified storage pool on array.  please check the configure.") := by
      simp only [driver.getPool, hp, hid, hname, ne_eq, not_true_eq_false, if_false]
    rw [hg]
    exact ⟨rfl, hp, rfl, rfl, _, rfl⟩

/-- C8 at `driverA`, configured with both a pool ID and a pool name: the one
query issued is the lookup by ID. -/
theorem getPool_first_resolution_witness :
    driverA.pool = none ∧ driverA.storagePoolID ≠ "" ∧ driverA.storagePoolName ≠ "" ∧
    (driverA.getPool memUnity worldA).2.2.calls = [Call.GetPoolById "pool_1"] ∧
    (driverA.getPool memUnity worldA).1 = .ret (some { Id := "pool_1", Name := "gold" }) := by
  have h := (getPool_first_resolution memUnity driverA worldA rfl).1 (by decide)
  refine ⟨rfl, by decide, by decide, ?_, ?_⟩
  · rw [h]
    rfl
  · rw [h]
    rfl

/-- First resolution by ID: with no pool cached and `storagePoolID` set,
`getPool` looks the pool up by that ID, caches the answer and returns it. -/
theorem getPool_byId {σ : Type} (u : Unity σ) (d : driver) (w : World σ)
    (hp : d.pool = none) (hid : d.storagePoolID ≠ "") :
    d.getPool u w =
      (.ret (u.GetPoolById w.array d.storagePoolID),
        { d with pool := u.GetPoolById w.array d.storagePoolID },
        w.call (.GetPoolById d.storagePoolID)) := by
  simp only [driver.getPool, hp, if_pos hid]

/-- First resolution by name: with no pool cached, `storagePoolID` empty and
`storagePoolName` set, `getPool` looks the pool up by that name, caches the
answer and returns it. -/
theorem getPool_byName {σ : Type} (u : Unity σ) (d : driver) (w : World σ)
    (hp : d.pool = none) (hid : d.storagePoolID = "") (hname : d.storagePoolName ≠ "") :
    d.getPool u w =
      (.ret (u.GetPoolByName w.array d.storagePoolName),
        { d with pool := u.GetPoolByName w.array d.storagePoolName },
        w.call (.GetPoolByName d.storagePoolName)) := by
  simp only [driver.getPool, hp, hid, hname, ne_eq, not_true_eq_false, if_false,
    not_false_eq_true, if_true]

/-- A cached pool is returned as it is: no query, no log line, whatever the
array holds. -/
theorem getPool_cached {σ : Type} (u : Unity σ) (d : driver) (w : World σ) (p : Pool)
    (hp : d.pool = some p) : d.getPool u w = (.ret (some p), d, w) := by
  simp only [driver.getPool, hp]

/-- Any number of calls on a driver with a cached pool return that pool and
leave the driver and the world as they are. -/
theorem getPoolTimes_cached {σ : Type} (u : Unity σ) (n : Nat) (d : driver) (w : World σ)
    (p : Pool) (hp : d.pool = some p) :
    getPoolTimes u n d w = (List.replicate n (.ret (some p)), d, w) := by
  induction n with
  | zero => rfl
  | succ n ih => simp only [getPoolTimes, getPool_cached u d w p hp, ih, List.replicate_succ]

/-- Memoization once a pool is found: on a driver with no cached pool whose
configured pool exists on the array (by ID when `storagePoolID` is set, else by
name), any number `n + 1` of successive `getPool` calls all return that same
pool, the driver ends with it cached, the array is unchanged, and the array has
received exactly one pool-lookup query in total. -/
theorem getPool_memoized {σ : Type} (u : Unity σ) (d : driver) (w : World σ) (p : Pool)
    (n : Nat) (hp : d.pool = none)
    (hres : (d.storagePoolID ≠ "" ∧ u.GetPoolById w.array d.storagePoolID = some p) ∨
      (d.storagePoolID = "" ∧ d.storagePoolName ≠ "" ∧
        u.GetPoolByName w.array d.storagePoolName = some p)) :
    (getPoolTimes u (n + 1) d w).1 = List.replicate (n + 1) (.ret (some p)) ∧
    (getPoolTimes u (n + 1) d w).2.1.pool = some p ∧
    (getPoolTimes u (n + 1) d w).2.2.array = w.array ∧
    ∃ q, q.isPoolLookup = true ∧ (getPoolTimes u (n + 1) d w).2.2.calls = w.calls ++ [q] := by
  rcases hres with ⟨hid, hfound⟩ | ⟨hid, hname, hfound⟩
  · have hg := getPool_byId u d w hp hid
    rw [hfound] at hg
    have hT : getPoolTimes u (n + 1) d w =
        (List.replicate (n + 1) (.ret (some p)), { d with pool := some p },
          w.call (.GetPoolById d.storagePoolID)) := by
      simp only [getPoolTimes, hg,
        getPoolTimes_cached u n { d with pool := some p } _ p rfl, List.replicate_succ]
    rw [hT]
    exact ⟨rfl, rfl, rfl, .GetPoolById d.storagePoolID, rfl, rfl⟩
  · have hg := getPool_byName u d w hp hid hname
    rw [hfound] at hg
    have hT : getPoolTimes u (n + 1) d w =
        (List.replicate (n + 1) (.ret (some p)), { d with pool := some p },
          w.call (.GetPoolByName d.storagePoolName)) := by
      simp only [getPoolTimes, hg,
        getPoolTimes_cached u n { d with pool := some p } _ p rfl, List.replicate_succ]
    rw [hT]
    exact ⟨rfl, rfl, rfl, .GetPoolByName d.storagePoolName, rfl, rfl⟩

/-- Memoization at `driverA` on `arrayA`: three calls return `pool_1` three times
after a single lookup by ID. -/
theorem getPool_memoized_witness :
    driverA.pool = none ∧
    memUnity.GetPoolById worldA.array driverA.storagePoolID
      = some { Id := "pool_1", Name := "gold" } ∧
    (getPoolTimes memUnity 3 driverA worldA).1
      = List.replicate 3 (.ret (some { Id := "pool_1", Name := "gold" })) ∧
    (getPoolTimes memUnity 3 driverA worldA).2.2.calls = [Call.GetPoolById "pool_1"] := by
  have h := getPool_memoized memUnity driverA worldA { Id := "pool_1", Name := "gold" } 2 rfl
    (Or.inl ⟨by decide, by decide⟩)
  exact ⟨rfl, by decide, h.1, by decide⟩

/-- A lookup by ID that finds no pool is not remembered: `getPool` returns nil
without any `log.Fatal`, the driver is as it was (no pool cached), and the one
call issued is the lookup. -/
theorem getPool_miss {σ : Type} (u : Unity σ) (d : driver) (w : World σ)
    (hp : d.pool = none) (hid : d.storagePoolID ≠ "")
    (hmiss : u.GetPoolById w.array d.storagePoolID = none) :
    d.getPool u w = (.ret none, d, w.call (.GetPoolById d.storagePoolID)) := by
  have hg := getPool_byId u d w hp hid
  rw [hmiss] at hg
  rw [hg]
  cases d
  simp only at hp
  subst hp
  rfl

/-- With the configured pool absent from the array, every one of `n` successive
`getPool` calls returns nil and queries the array again: `n` calls, `n`
lookups, for every client. -/
theorem getPoolTimes_miss {σ : Type} (u : Unity σ) (n : Nat) (d : driver) (w : World σ)
    (hp : d.pool = none) (hid : d.storagePoolID ≠ "")
    (hmiss : u.GetPoolById w.array d.storagePoolID = none) :
    (getPoolTimes u n d w).1 = List.replicate n (.ret none) ∧
    (getPoolTimes u n d w).2.1 = d ∧
    (getPoolTimes u n d w).2.2.array = w.array ∧
    (getPoolTimes u n d w).2.2.calls
      = w.calls ++ List.replicate n (.GetPoolById d.storagePoolID) := by
  induction n generalizing w with
  | zero => exact ⟨rfl, rfl, rfl, by simp [getPoolTimes]⟩
  | succ n ih =>
    have hg := getPool_miss u d w hp hid hmiss
    obtain ⟨h1, h2, h3, h4⟩ := ih (w.call (.GetPoolById d.storagePoolID)) hmiss
    simp only [getPoolTimes, hg]
    refine ⟨?_, h2, h3, ?_⟩
    · rw [h1, List.replicate_succ]
    · rw [h4, World.call_calls, List.append_assoc, List.replicate_succ]
      rfl

/-- C9 on the code: with the pool `pool_9` configured and absent from `arrayA`,
two `getPool` calls both return nil, no call ends in `log.Fatal`, and the array
receives two pool-lookup queries, not at most one; `VolumeCreate` on that driver
then calls `CreateLun` on the nil pool. -/
theorem getPool_requeries_missing_pool :
    driverB.storagePoolID = "pool_9" ∧
    memUnity.GetPoolById worldA.array driverB.storagePoolID = none ∧
    (getPoolTimes memUnity 2 driverB worldA).1 = [.ret none, .ret none] ∧
    (getPoolTimes memUnity 2 driverB worldA).2.1.pool = none ∧
    (getPoolTimes memUnity 2 driverB worldA).2.2.calls
      = [Call.GetPoolById "pool_9", Call.GetPoolById "pool_9"] ∧
    (getPoolTimes memUnity 2 driverB worldA).2.2.logs = [] ∧
    ¬ ((getPoolTimes memUnity 2 driverB worldA).2.2.calls.countP Call.isPoolLookup ≤ 1) ∧
    (driverB.VolumeCreate memUnity ctxA "vol" ⟨none, none, some 50, none⟩ worldA).2.2.calls
      = [Call.GetPoolById "pool_9", Call.CreateLun none "vol" 50] ∧
    (driverB.VolumeCreate memUnity ctxA "vol" ⟨none, none, some 50, none⟩ worldA).1
      = .panic := by
  decide

/-! ## Unsupported operations -/

/-- C10, as the code has it: for every input, each unsupported operation
returns a nil result together with a nil error; the array is left alone, no call
is issued to it, and the only trace of the request is one line logged at error
level. -/
theorem unsupported_return_nil {σ : Type} (d : driver) (ctx : Context) (id name dest : String)
    (copts : VolumeCreateOpts) (opts : Store) (w : World σ) :
    (∃ text, d.VolumeCreateFromSnapshot ctx id name copts w
        = ((none, none), w.logf .error text)) ∧
    (∃ text, d.VolumeCopy ctx id name opts w = ((none, none), w.logf .error text)) ∧
    (∃ text, d.VolumeSnapshot ctx id name opts w = ((none, none), w.logf .error text)) ∧
    (∃ text, d.Snapshots ctx opts w = (([], none), w.logf .error text)) ∧
    (∃ text, d.SnapshotInspect ctx id opts w = ((none, none), w.logf .error text)) ∧
    (∃ text, d.SnapshotCopy ctx id name dest opts w = ((none, none), w.logf .error text)) ∧
    (∃ text, d.SnapshotRemove ctx id opts w = (none, w.logf .error text)) ∧
    ∀ text, (w.logf .error text).array = w.array ∧ (w.logf .error text).calls = w.calls ∧
      (w.logf .error text).logs = w.logs ++ [(Level.error, text)] :=
  ⟨⟨_, rfl⟩, ⟨_, rfl⟩, ⟨_, rfl⟩, ⟨_, rfl⟩, ⟨_, rfl⟩, ⟨_, rfl⟩, ⟨_, rfl⟩, fun _ => ⟨rfl, rfl, rfl⟩⟩

/-- C10 fails as stated: `SnapshotRemove` and `VolumeCopy`, like the five other
unsupported operations, return a nil error. -/
theorem unsupported_error_is_nil :
    (driverA.SnapshotRemove ctxA "snap_1" [] worldA).1 = none ∧
    (driverA.VolumeCopy ctxA "sv_1" "copy" [] worldA).1 = (none, none) ∧
    (driverA.VolumeCreateFromSnapshot ctxA "snap_1" "vol" ⟨none, none, none, none⟩ worldA).1
      = (none, none) ∧
    (driverA.VolumeSnapshot ctxA "sv_1" "snap" [] worldA).1 = (none, none) ∧
    (driverA.Snapshots ctxA [] worldA).1 = ([], none) ∧
    (driverA.SnapshotInspect ctxA "snap_1" [] worldA).1 = (none, none) ∧
    (driverA.SnapshotCopy ctxA "snap_1" "snap" "dest" [] worldA).1 = (none, none) ∧
    ¬ ((driverA.SnapshotRemove ctxA "snap_1" [] worldA).1 ≠ none) := by
  refine ⟨rfl, rfl, rfl, rfl, rfl, rfl, rfl, ?_⟩
  intro h
  exact h rfl

/-! ## Paths that miss a check

Evaluations of the driver on `arrayA` at inputs where a lookup returns nil or an
attachment is already present, with the general facts behind them. -/

/-- `VolumeAttach` never changes the array and never issues a mutation: for
every client and every input, the calls it adds are lookups. -/
theorem VolumeAttach_no_mutation {σ : Type} (u : Unity σ) (d : driver) (ctx : Context)
    (volumeID : String) (opts : VolumeAttachOpts) (w : World σ) :
    (d.VolumeAttach u ctx volumeID opts w).2.array = w.array ∧
    ∃ cs, (d.VolumeAttach u ctx volumeID opts w).2.calls = w.calls ++ cs ∧
      ∀ c ∈ cs, c.isMutation = false := by
  cases hL : u.GetLunById w.array volumeID with
  | none =>
    simp only [driver.VolumeAttach, hL]
    exact ⟨rfl, [.GetLunById volumeID], rfl, by simp [Call.isMutation]⟩
  | some L =>
    by_cases hc : (u.GetHostLUN w.array L).length > 0 ∧ opts.Force = false
    · simp only [driver.VolumeAttach, hL, if_pos hc]
      exact ⟨rfl, [.GetLunById volumeID, .GetHostLUN L], by simp [World.call_calls],
        by simp [Call.isMutation]⟩
    · by_cases hid : volumeID = ""
      · have hI : d.VolumeInspect u ctx volumeID { Attachments := true }
            ((w.call (.GetLunById volumeID)).call (.GetHostLUN L)) =
            ((none, some (.msg "no volume ID specified.")),
              (w.call (.GetLunById volumeID)).call (.GetHostLUN L)) := by
          simp only [driver.VolumeInspect, if_pos hid]
        simp only [driver.VolumeAttach, hL, if_neg hc, hI]
        exact ⟨rfl, [.GetLunById volumeID, .GetHostLUN L], by simp [World.call_calls],
          by simp [Call.isMutation]⟩
      · have hI := VolumeInspect_found u d ctx volumeID { Attachments := true }
          ((w.call (.GetLunById volumeID)).call (.GetHostLUN L)) L hid hL
        simp only [driver.VolumeAttach, hL, if_neg hc, hI]
        exact ⟨rfl, [.GetLunById volumeID, .GetHostLUN L, .GetLunById volumeID],
          by simp [World.call_calls], by simp [Call.isMutation]⟩

/-- C2 on the code: `sv_1` has exactly one host association, to `Host_7`; the
instance `Host_9` attaches it with force; the call succeeds, issues three
lookups and no detach or attach, and the Lun is still associated with `Host_7`
and with nothing else. -/
theorem VolumeAttach_force_keeps_old_association :
    memUnity.GetHostLUN worldA.array lunA = [{ HostId := "Host_7" }] ∧
    MustInstanceID ctxA = some { ID := "Host_9", Driver := "unity" } ∧
    (driverA.VolumeAttach memUnity ctxA "sv_1" { Force := true } worldA).1
      = .ret (some (driverA.assembleVolumeSD lunA "/dev/sdb"), "sv_1", none) ∧
    (driverA.VolumeAttach memUnity ctxA "sv_1" { Force := true } worldA).2.calls
      = [.GetLunById "sv_1", .GetHostLUN lunA, .GetLunById "sv_1"] ∧
    memUnity.GetHostLUN
      (driverA.VolumeAttach memUnity ctxA "sv_1" { Force := true } worldA).2.array lunA
      = [{ HostId := "Host_7" }] := by
  decide

/-- `VolumeRemove` hands whatever the lookup returned to `Delete`: for every
client and every identifier, the calls it adds are the lookup and then `Delete`
on the result of that lookup, nil included. -/
theorem VolumeRemove_calls {σ : Type} (u : Unity σ) (d : driver) (ctx : Context)
    (volumeID : String) (opts : Store) (w : World σ) :
    (d.VolumeRemove u ctx volumeID opts w).2.calls =
      w.calls ++ [.GetLunById volumeID, .Delete (u.GetLunById w.array volumeID)] := by
  simp only [driver.VolumeRemove]
  split <;> simp [World.call, World.setArray, World.logf]

/-- The operations that check the Lun lookup: for an identifier the array does
not resolve, `VolumeInspect`, `VolumeAttach`, `VolumeDetach` (the context
carrying an instance identifier) and `VolumeDetachAll` return an error after
lookups only. -/
theorem missing_lun_is_an_error {σ : Type} (u : Unity σ) (d : driver) (ctx : Context)
    (volumeID : String) (w : World σ) (iid : InstanceID)
    (hL : u.GetLunById w.array volumeID = none) (hi : MustInstanceID ctx = some iid) :
    (∃ e w', d.VolumeInspect u ctx volumeID { Attachments := true } w = ((none, some e), w')) ∧
    d.VolumeAttach u ctx volumeID { Force := true } w =
      (.ret (none, "", some (.msg "cannot find the specified lun.")),
        w.call (.GetLunById volumeID)) ∧
    d.VolumeDetach u ctx volumeID { Force := true } w =
      (.ret (none, some (.msg "error getting lun.")), w.call (.GetLunById volumeID)) ∧
    d.VolumeDetachAll u ctx volumeID [] w =
      (some (.msg "error getting lun."), w.call (.GetLunById volumeID)) := by
  refine ⟨?_, ?_, ?_, ?_⟩
  · obtain ⟨e, w', h, _⟩ := VolumeInspect_missing u d ctx volumeID { Attachments := true } w hL
    exact ⟨e, w', h⟩
  · simp only [driver.VolumeAttach, hL]
  · simp only [driver.VolumeDetach, hi, hL]
  · simp only [driver.VolumeDetachAll, hL]

/-- C6 on the code: `arrayA` has no Lun `sv_404`, and `VolumeRemove` of it calls
`Delete` on the nil Lun instead of returning a not-found error; `arrayA` has no
host `Host_404`, and `VolumeDetach` of `sv_1` by that instance calls
`DetachHost` with the nil host. On this array both calls panic. -/
theorem VolumeRemove_missing_lun_calls_Delete :
    memUnity.GetLunById worldA.array "sv_404" = none ∧
    (driverA.VolumeRemove memUnity ctxA "sv_404" [] worldA).2.calls
      = [.GetLunById "sv_404", .Delete none] ∧
    (driverA.VolumeRemove memUnity ctxA "sv_404" [] worldA).1 = .panic ∧
    memUnity.GetHostById worldA.array "Host_404" = none ∧
    (driverA.VolumeDetach memUnity ctxB "sv_1" { Force := false } worldA).2.calls
      = [.GetLunById "sv_1", .GetHostById "Host_404", .DetachHost lunA none] ∧
    (driverA.VolumeDetach memUnity ctxB "sv_1" { Force := false } worldA).1 = .panic := by
  decide

/-- `Volumes` never asks for the pool: for every client and every input, the
one call it issues is `GetLunList` on the cached pool as it stands. -/
theorem Volumes_calls {σ : Type} (u : Unity σ) (d : driver) (ctx : Context)
    (opts : VolumesOpts) (w : World σ) :
    (d.Volumes u ctx opts w).2 = w.call (.GetLunList d.pool) := by
  simp only [driver.Volumes]
  split <;> rfl

/-- `Volumes` on a driver whose pool is cached and lists its Luns: one Volume per
Lun, in order, each the Volume `VolumeInspect` assembles for that Lun. -/
theorem Volumes_of_cached_pool {σ : Type} (u : Unity σ) (d : driver) (ctx : Context)
    (attachments : Bool) (w : World σ) (luns : List Lun)
    (hl : u.GetLunList w.array d.pool = .ret luns) :
    (d.Volumes u ctx { Attachments := attachments } w).1 =
      .ret (luns.map fun L => d.assembleVolumeSD L
        (lookupDeviceName (getMappedVolumes ctx { Attachments := attachments }) L.Id), none) := by
  simp only [driver.Volumes, hl, getMappedVolumes, lookupDeviceName]

/-- C7 on the code: a driver initialised with `configA`, whose pool `pool_1`
exists on `arrayA`, has no pool cached; `Volumes` on it issues no pool lookup
and calls `GetLunList` on the nil pool, which panics on this array, where
`getPool` would have resolved `pool_1`. -/
theorem Volumes_skips_pool_resolver :
    initA.1 = none ∧
    initA.2.1.pool = none ∧
    initA.2.2.calls = [.New "" "" "", .Authenticate] ∧
    (initA.2.1.getPool memUnity initA.2.2).1 = .ret (some { Id := "pool_1", Name := "gold" }) ∧
    (initA.2.1.Volumes memUnity ctxA { Attachments := true } initA.2.2).1 = .panic ∧
    (initA.2.1.Volumes memUnity ctxA { Attachments := true } initA.2.2).2.calls
      = [.New "" "" "", .Authenticate, .GetLunList none] := by
  decide

end UnityDriver
